import Mathlib

/-!
# Verification of the asset-importer C++ bridge (`wrapper.cpp` / `wrapper.h`)

Shallow embedding of the bridging layer between a flat C ABI and the wrapped
3D-asset engine.  The engine itself (Assimp) is a black box: its operations
(`ReadFile`, `ReadFileFromMemory`, `aiCopyScene`, `Export`, `ExportToBlob`,
`GetOrphanedBlob`, the property sinks) are modelled as an oracle record, and
every call the bridge makes into the engine is recorded in an explicit event
trace.  The thread-local error string `g_last_error_msg` is threaded through
the functions as explicit state.  Float values that are merely carried through
unchanged, and the progress fractions (whose claimed values arise only from
exact constants 0, 1/2, 1), are modelled as rationals.
-/

set_option autoImplicit false

/-- The property-kind tags of `aiRustPropertyKind` in `wrapper.h`.
In C the enum field can carry any integer value, so the kind is an `Int`. -/
def aiRustPropertyKind_Integer : Int := 0

/-- `aiRustPropertyKind_Float = 1`. -/
def aiRustPropertyKind_Float : Int := 1

/-- `aiRustPropertyKind_String = 2`. -/
def aiRustPropertyKind_String : Int := 2

/-- `aiRustPropertyKind_Matrix4x4 = 3`. -/
def aiRustPropertyKind_Matrix4x4 : Int := 3

/-- `aiRustPropertyKind_Boolean = 4`. -/
def aiRustPropertyKind_Boolean : Int := 4

/-- An `aiMatrix4x4` value (16 floats, row-major); the bridge only
dereferences and forwards it, so the entries are opaque rationals. -/
abbrev Mat4 := List Rat

/-- The `aiRustProperty` descriptor of `wrapper.h`.  Pointer fields
(`name`, `string_value`, `matrix_value`) become `Option`s: `none` is the
null pointer, `some` the dereferenced value. -/
structure AiRustProperty where
  name : Option String
  kind : Int
  int_value : Int
  float_value : Rat
  string_value : Option String
  matrix_value : Option Mat4
  deriving DecidableEq

/-- One engine set-property call made by the marshaller
(`SetPropertyInteger` / `SetPropertyBool` / `SetPropertyFloat` /
`SetPropertyString` / `SetPropertyMatrix`). -/
inductive PropCall where
  | setInteger (name : String) (v : Int)
  | setBool (name : String) (v : Bool)
  | setFloat (name : String) (v : Rat)
  | setString (name : String) (v : String)
  | setMatrix (name : String) (v : Mat4)
  deriving DecidableEq

/-- The body of one iteration of the loop in `apply_properties`
(`wrapper.cpp` lines 150-174): the set-property calls emitted for a single
descriptor.  A null name skips; the `switch` on `kind` dispatches by
equality with the enum constants; the `default` case and a null matrix
pointer emit nothing. -/
def applyPropertyStep (p : AiRustProperty) : List PropCall :=
  match p.name with
  | none => []
  | some nm =>
    if p.kind = aiRustPropertyKind_Integer then [.setInteger nm p.int_value]
    else if p.kind = aiRustPropertyKind_Boolean then [.setBool nm (p.int_value != 0)]
    else if p.kind = aiRustPropertyKind_Float then [.setFloat nm p.float_value]
    else if p.kind = aiRustPropertyKind_String then [.setString nm (p.string_value.getD "")]
    else if p.kind = aiRustPropertyKind_Matrix4x4 then
      match p.matrix_value with
      | some m => [.setMatrix nm m]
      | none => []
    else []

/-- `apply_properties` (`wrapper.cpp` lines 148-175).  `props` is the
descriptor-array pointer (`none` = null), `count` the element count; the
loop reads `props[i]` for `i < count`, modelled by `List.take count`.
The result is the ordered trace of set-property calls made on the
importer. -/
def apply_properties (props : Option (List AiRustProperty)) (count : Nat) : List PropCall :=
  match props with
  | none => []
  | some l => ((l.take count).map applyPropertyStep).flatten

/-- `apply_export_properties` (`wrapper.cpp` lines 178-205): textually the
same loop as `apply_properties`, targeting the `ExportProperties` sink. -/
def apply_export_properties (props : Option (List AiRustProperty)) (count : Nat) :
    List PropCall :=
  match props with
  | none => []
  | some l => ((l.take count).map applyPropertyStep).flatten

/-- Spec-side counterpart of `applyPropertyStep`, written from the words
of spec §4.1 (the Property Marshaller contract) for the refinement proof:
per descriptor, Integer → set-integer, Boolean → set-bool of
`int_value != 0`, Float → set-float, String → set-string with empty string
for a null pointer, Matrix4x4 → set-matrix of the dereferenced pointer,
skipped silently when the pointer is null; null names and unknown kinds
are skipped silently. -/
def marshalStepSpec (p : AiRustProperty) : List PropCall :=
  match p.name with
  | none => []
  | some nm =>
    if p.kind = aiRustPropertyKind_Integer then [.setInteger nm p.int_value]
    else if p.kind = aiRustPropertyKind_Boolean then [.setBool nm (p.int_value != 0)]
    else if p.kind = aiRustPropertyKind_Float then [.setFloat nm p.float_value]
    else if p.kind = aiRustPropertyKind_String then [.setString nm (p.string_value.getD "")]
    else if p.kind = aiRustPropertyKind_Matrix4x4 then
      match p.matrix_value with
      | some m => [.setMatrix nm m]
      | none => []
    else []

/-- The progress callback's return behaviour (`aiRustProgressCallback` in
`wrapper.h`): given the delivered fraction and optional message, the
caller's function returns a `Bool` (false requests cancellation).  The
opaque `user` pointer is part of the closure and not modelled separately. -/
abbrev ProgressCb := Rat → Option String → Bool

/-- One invocation of the caller's progress callback: the fraction and the
optional message delivered to it. -/
inductive ProgressEvent where
  | call (fraction : Rat) (message : Option String)
  deriving DecidableEq

/-- The fraction computed by `BridgeProgressHandler::UpdateFileRead`
(`wrapper.cpp` line 46): `numberOfSteps ? (currentStep / (float)numberOfSteps) * 0.5f : 0.0f`. -/
def updateFileReadFraction (currentStep numberOfSteps : Int) : Rat :=
  if numberOfSteps != 0 then ((currentStep : Rat) / (numberOfSteps : Rat)) * (1 / 2) else 0

/-- The fraction computed by `BridgeProgressHandler::UpdatePostProcess`
(`wrapper.cpp` lines 53-54): `f = numberOfSteps ? currentStep/numberOfSteps : 1.0f`,
delivered as `f * 0.5f + 0.5f`. -/
def updatePostProcessFraction (currentStep numberOfSteps : Int) : Rat :=
  (if numberOfSteps != 0 then (currentStep : Rat) / (numberOfSteps : Rat) else 1) * (1 / 2)
    + 1 / 2

/-- The fraction computed by `BridgeProgressHandler::UpdateFileWrite`
(`wrapper.cpp` lines 61-62): `f = numberOfSteps ? currentStep/numberOfSteps : 1.0f`,
delivered as `f * 0.5f`. -/
def updateFileWriteFraction (currentStep numberOfSteps : Int) : Rat :=
  (if numberOfSteps != 0 then (currentStep : Rat) / (numberOfSteps : Rat) else 1) * (1 / 2)

/-- `BridgeProgressHandler::Update` (`wrapper.cpp` lines 36-40): returns
`true` when no callback is installed, otherwise the callback's return
value; the message is null.  The second component is the trace of
callback invocations. -/
def bridgeUpdate (cb : Option ProgressCb) (percentage : Rat) : Bool × List ProgressEvent :=
  match cb with
  | none => (true, [])
  | some c => (c percentage none, [.call percentage none])

/-- `BridgeProgressHandler::UpdateFileRead` (`wrapper.cpp` lines 42-47).
The C++ method returns `void`: the only engine-visible output is the
callback invocation itself, and the callback's `Bool` return is computed
and discarded (`(void)cb(...)`). -/
def bridgeUpdateFileRead (cb : Option ProgressCb) (currentStep numberOfSteps : Int) :
    List ProgressEvent :=
  match cb with
  | none => []
  | some c =>
    let buf := s!"read {currentStep}/{numberOfSteps}"
    let frac := updateFileReadFraction currentStep numberOfSteps
    let _ := c frac (some buf)
    [.call frac (some buf)]

/-- `BridgeProgressHandler::UpdatePostProcess` (`wrapper.cpp` lines 49-55);
`void` return, callback result discarded. -/
def bridgeUpdatePostProcess (cb : Option ProgressCb) (currentStep numberOfSteps : Int) :
    List ProgressEvent :=
  match cb with
  | none => []
  | some c =>
    let buf := s!"post {currentStep}/{numberOfSteps}"
    let frac := updatePostProcessFraction currentStep numberOfSteps
    let _ := c frac (some buf)
    [.call frac (some buf)]

/-- `BridgeProgressHandler::UpdateFileWrite` (`wrapper.cpp` lines 57-63);
`void` return, callback result discarded. -/
def bridgeUpdateFileWrite (cb : Option ProgressCb) (currentStep numberOfSteps : Int) :
    List ProgressEvent :=
  match cb with
  | none => []
  | some c =>
    let buf := s!"write {currentStep}/{numberOfSteps}"
    let frac := updateFileWriteFraction currentStep numberOfSteps
    let _ := c frac (some buf)
    [.call frac (some buf)]

/-- The caller-supplied `aiFileIO` table as seen by `RustIOSystem::Close`:
only the presence of the `CloseProc` slot matters for the close path. -/
structure AiFileIO where
  hasCloseProc : Bool
  deriving DecidableEq

/-- The `RustIOStream` adapter state: `m_handle` is the `aiFile*` produced
by the table's open operation (`none` = null). -/
structure RustIOStream where
  m_handle : Option Nat
  deriving DecidableEq

/-- An invocation of the I/O table's close operation
(`m_fileio->CloseProc(m_fileio, handle)`). -/
inductive CloseEvent where
  | closeProc (handle : Nat)
  deriving DecidableEq

/-- `RustIOSystem::Close` (`wrapper.cpp` lines 137-145) acting on a
non-null `RustIOStream`: when the system's `m_fileio` and its `CloseProc`
are present and the stream's handle is non-null, the table's close runs on
the handle and the handle is nulled; otherwise nothing is invoked.  The
final `delete pFile` (releasing the adapter object) has no observable
state beyond this.  Returns the stream state at deletion time and the
trace of table-close invocations. -/
def ioSystemClose (m_fileio : Option AiFileIO) (s : RustIOStream) :
    RustIOStream × List CloseEvent :=
  match m_fileio, s.m_handle with
  | some fio, some h =>
    if fio.hasCloseProc then (⟨none⟩, [.closeProc h]) else (s, [])
  | _, _ => (s, [])

/-- Scene handles (`aiScene*` values produced by the engine). -/
abbrev Scene := Nat

/-- Export-blob handles (`aiExportDataBlob*` values). -/
abbrev Blob := Nat

/-- `aiReturn` as used by the export entry point: the code only
distinguishes `aiReturn_SUCCESS` from everything else. -/
inductive AiReturn where
  | success
  | failure
  deriving DecidableEq

/-- Oracle for the wrapped engine (Assimp), treated as a black box.
`readFile` and `readFileFromMemory` return either the scene or the
importer's `GetErrorString()` on failure; `exportScene` and
`exportToBlob` likewise with the exporter's error string.
`freshImporterError` is `GetErrorString()` of an importer that was never
asked to read (the unreachable both-null branch of `import_with_bridge`).
`orphanedBlob` is `Exporter::GetOrphanedBlob()` after a successful
`ExportToBlob`. -/
structure Engine where
  readFile : String → Nat → Except String Scene
  readFileFromMemory : String → Nat → Nat → String → Except String Scene
  copyScene : Scene → Option Scene
  freshImporterError : String
  exportScene : Scene → String → String → Nat → Except String Unit
  exportToBlob : Scene → String → Nat → Except String Blob
  orphanedBlob : Blob → Blob

/-- One observable action of a bridge call: adapter construction,
a set-property call, or an engine API call. -/
inductive BridgeEvent where
  | mkIOAdapter
  | mkProgressAdapter
  | propCall (c : PropCall)
  | exportPropCall (c : PropCall)
  | readFile (path : String) (flags : Nat)
  | readFileFromMemory (data : String) (len : Nat) (flags : Nat) (hint : String)
  | copyScene (s : Scene)
  | exportScene (s : Scene) (formatId : String) (path : String) (preprocessing : Nat)
  | exportToBlob (s : Scene) (formatId : String) (preprocessing : Nat)
  | getOrphanedBlob (b : Blob)
  deriving DecidableEq

/-- `import_with_bridge` (`wrapper.cpp` lines 208-259).  Builds the I/O
and progress adapters when supplied, applies the properties, performs
exactly one read (path preferred over memory), and on success deep-copies
the scene with `aiCopyScene`.  `err` is the incoming value of the
thread-local `g_last_error_msg`; the returned string is its value after
the call (written only on the two failure paths).  The third component is
the ordered event trace. -/
def import_with_bridge (eng : Engine) (path : Option String) (mem : Option String)
    (mem_len : Nat) (flags : Nat) (file_io : Option AiFileIO)
    (props : Option (List AiRustProperty)) (props_count : Nat)
    (progress_cb : Option ProgressCb) (hint : Option String) (err : String) :
    Option Scene × String × List BridgeEvent :=
  let evIo : List BridgeEvent := if file_io.isSome then [.mkIOAdapter] else []
  let evPh : List BridgeEvent := if progress_cb.isSome then [.mkProgressAdapter] else []
  let evProps := (apply_properties props props_count).map BridgeEvent.propCall
  let pre := evIo ++ evPh ++ evProps
  match path with
  | some p =>
    match eng.readFile p flags with
    | .error e => (none, e, pre ++ [.readFile p flags])
    | .ok scene =>
      match eng.copyScene scene with
      | none =>
        (none, "aiCopyScene returned null", pre ++ [.readFile p flags, .copyScene scene])
      | some out =>
        (some out, err, pre ++ [.readFile p flags, .copyScene scene])
  | none =>
    match mem with
    | some m =>
      match eng.readFileFromMemory m mem_len flags (hint.getD "") with
      | .error e =>
        (none, e, pre ++ [.readFileFromMemory m mem_len flags (hint.getD "")])
      | .ok scene =>
        match eng.copyScene scene with
        | none =>
          (none, "aiCopyScene returned null",
            pre ++ [.readFileFromMemory m mem_len flags (hint.getD ""), .copyScene scene])
        | some out =>
          (some out, err,
            pre ++ [.readFileFromMemory m mem_len flags (hint.getD ""), .copyScene scene])
    | none => (none, eng.freshImporterError, pre)

/-- `aiImportFileExWithProgressRust` (`wrapper.cpp` lines 266-281).
`errSlot` is the incoming thread-local error string; it is cleared at
entry (`g_last_error_msg.clear()`).  A null path short-circuits with
"Path is null" before anything else happens. -/
def aiImportFileExWithProgressRust (eng : Engine) (path : Option String) (flags : Nat)
    (file_io : Option AiFileIO) (props : Option (List AiRustProperty)) (props_count : Nat)
    (progress_cb : Option ProgressCb) (errSlot : String) :
    Option Scene × String × List BridgeEvent :=
  let _ := errSlot
  match path with
  | none => (none, "Path is null", [])
  | some p =>
    import_with_bridge eng (some p) none 0 flags file_io props props_count progress_cb none ""

/-- `aiImportFileFromMemoryWithProgressRust` (`wrapper.cpp` lines
283-299).  Clears the error slot, rejects a null buffer or a zero length
with "Memory buffer is empty", otherwise delegates with a null path and a
null file-I/O table. -/
def aiImportFileFromMemoryWithProgressRust (eng : Engine) (data : Option String)
    (length : Nat) (flags : Nat) (hint : Option String)
    (props : Option (List AiRustProperty)) (props_count : Nat)
    (progress_cb : Option ProgressCb) (errSlot : String) :
    Option Scene × String × List BridgeEvent :=
  let _ := errSlot
  match data with
  | none => (none, "Memory buffer is empty", [])
  | some d =>
    if length = 0 then (none, "Memory buffer is empty", [])
    else
      import_with_bridge eng none (some d) length flags none props props_count progress_cb
        hint ""

/-- `aiExportSceneExWithPropertiesRust` (`wrapper.cpp` lines 301-349),
export-enabled build (`ASSIMP_BUILD_NO_EXPORT` not defined).  Clears the
error slot; validates scene, then format/path; wires the I/O adapter when
supplied; applies the export properties; calls `Exporter::Export` and on
a non-success return records the exporter's error string. -/
def aiExportSceneExWithPropertiesRust (eng : Engine) (scene : Option Scene)
    (format_id : Option String) (path : Option String) (file_io : Option AiFileIO)
    (preprocessing : Nat) (props : Option (List AiRustProperty)) (props_count : Nat)
    (errSlot : String) : AiReturn × String × List BridgeEvent :=
  let _ := errSlot
  match scene with
  | none => (.failure, "Scene is null", [])
  | some sc =>
    match format_id, path with
    | some fmt, some p =>
      let evIo : List BridgeEvent := if file_io.isSome then [.mkIOAdapter] else []
      let evProps := (apply_export_properties props props_count).map BridgeEvent.exportPropCall
      match eng.exportScene sc fmt p preprocessing with
      | .error e => (.failure, e, evIo ++ evProps ++ [.exportScene sc fmt p preprocessing])
      | .ok _ => (.success, "", evIo ++ evProps ++ [.exportScene sc fmt p preprocessing])
    | _, _ => (.failure, "Format ID or path is null", [])

/-- `aiExportSceneToBlobWithPropertiesRust` (`wrapper.cpp` lines 351-391),
export-enabled build.  Clears the error slot; validates scene then
format; applies the export properties; calls `Exporter::ExportToBlob`,
recording the exporter's error on a null blob, and on success returns
`GetOrphanedBlob()`. -/
def aiExportSceneToBlobWithPropertiesRust (eng : Engine) (scene : Option Scene)
    (format_id : Option String) (preprocessing : Nat)
    (props : Option (List AiRustProperty)) (props_count : Nat) (errSlot : String) :
    Option Blob × String × List BridgeEvent :=
  let _ := errSlot
  match scene with
  | none => (none, "Scene is null", [])
  | some sc =>
    match format_id with
    | none => (none, "Format ID is null", [])
    | some fmt =>
      let evProps := (apply_export_properties props props_count).map BridgeEvent.exportPropCall
      match eng.exportToBlob sc fmt preprocessing with
      | .error e => (none, e, evProps ++ [.exportToBlob sc fmt preprocessing])
      | .ok b =>
        (some (eng.orphanedBlob b), "",
          evProps ++ [.exportToBlob sc fmt preprocessing, .getOrphanedBlob b])

/-- The fixed capability-absent message of the `ASSIMP_BUILD_NO_EXPORT`
branches (`wrapper.cpp` lines 320 and 366). -/
def noExportMsg : String :=
  "Assimp was built without export support (ASSIMP_BUILD_NO_EXPORT)"

/-- `aiExportSceneExWithPropertiesRust` when the engine is built with
`ASSIMP_BUILD_NO_EXPORT` (`wrapper.cpp` lines 310-321): the slot is
cleared then set to the fixed message; every argument is cast to void and
no engine API is called. -/
def aiExportSceneExWithPropertiesRust_noExport (scene : Option Scene)
    (format_id : Option String) (path : Option String) (file_io : Option AiFileIO)
    (preprocessing : Nat) (props : Option (List AiRustProperty)) (props_count : Nat)
    (errSlot : String) : AiReturn × String × List BridgeEvent :=
  let _ := (scene, format_id, path, file_io, preprocessing, props, props_count, errSlot)
  (.failure, noExportMsg, [])

/-- `aiExportSceneToBlobWithPropertiesRust` when the engine is built with
`ASSIMP_BUILD_NO_EXPORT` (`wrapper.cpp` lines 358-367). -/
def aiExportSceneToBlobWithPropertiesRust_noExport (scene : Option Scene)
    (format_id : Option String) (preprocessing : Nat)
    (props : Option (List AiRustProperty)) (props_count : Nat) (errSlot : String) :
    Option Blob × String × List BridgeEvent :=
  let _ := (scene, format_id, preprocessing, props, props_count, errSlot)
  (none, noExportMsg, [])

/-- `aiGetLastErrorStringRust` (`wrapper.cpp` lines 393-395): null when
the thread's slot is empty, otherwise the slot's contents. -/
def aiGetLastErrorStringRust (slot : String) : Option String :=
  if slot = "" then none else some slot

/-- The per-thread error slots: `g_last_error_msg` is `thread_local`, so
the global error state is one string per thread id. -/
abbrev ErrorSlots := Nat → String

/-- Running `aiImportFileExWithProgressRust` on thread `t`: the call reads
and writes only thread `t`'s instance of the thread-local
`g_last_error_msg`. -/
def importFileOnThread (eng : Engine) (t : Nat) (path : Option String) (flags : Nat)
    (file_io : Option AiFileIO) (props : Option (List AiRustProperty)) (props_count : Nat)
    (progress_cb : Option ProgressCb) (slots : ErrorSlots) :
    Option Scene × ErrorSlots :=
  let r := aiImportFileExWithProgressRust eng path flags file_io props props_count
    progress_cb (slots t)
  (r.1, fun u => if u = t then r.2.1 else slots u)

/-- `aiGetLastErrorStringRust` as observed from thread `t`. -/
def getLastErrorOnThread (slots : ErrorSlots) (t : Nat) : Option String :=
  aiGetLastErrorStringRust (slots t)

/-- A concrete engine oracle used to witness the theorems on concrete
inputs: reads succeed with scene 7 (path) or 8 (memory), deep copy adds
100, exports succeed with blob 3. -/
def sampleEngine : Engine :=
  ⟨fun _ _ => .ok 7, fun _ _ _ _ => .ok 8, fun s => some (s + 100), "",
    fun _ _ _ _ => .ok (), fun _ _ _ => .ok 3, fun b => b⟩

/-- An engine oracle whose reads fail with a fixed parse error and whose
deep copy fails, used to witness failure-path theorems. -/
def failingEngine : Engine :=
  ⟨fun _ _ => .error "parse failed", fun _ _ _ _ => .error "parse failed",
    fun _ => none, "", fun _ _ _ _ => .error "export failed",
    fun _ _ _ => .error "export failed", fun b => b⟩

/-- An engine oracle whose reads succeed but whose `aiCopyScene` yields
null, used to witness the copy-failure path. -/
def copyFailEngine : Engine :=
  ⟨fun _ _ => .ok 7, fun _ _ _ _ => .ok 8, fun _ => none, "",
    fun _ _ _ _ => .ok (), fun _ _ _ => .ok 3, fun b => b⟩

/-- The loop bodies of `apply_properties` and `apply_export_properties`
coincide with the spec-side per-descriptor contract. -/
theorem applyPropertyStep_eq_spec : applyPropertyStep = marshalStepSpec := rfl

/-- C1: the Property Marshaller processes descriptors in array order and,
per descriptor, makes exactly the set-property calls of the §4.1 contract
(`marshalStepSpec`): the matching call for a non-null name and recognized
kind, the empty string for a null string pointer, and no call for a null
name, an unrecognized kind, or a Matrix4x4 descriptor with a null matrix
pointer.  Application is non-atomic: the trace of a concatenation is the
concatenation of the traces, so valid descriptors before and after a
skipped one are still applied. -/
theorem apply_properties_marshals_in_order :
    (∀ l : List AiRustProperty,
      apply_properties (some l) l.length = (l.map marshalStepSpec).flatten) ∧
    (∀ l : List AiRustProperty,
      apply_export_properties (some l) l.length = (l.map marshalStepSpec).flatten) ∧
    (∀ l₁ l₂ : List AiRustProperty,
      apply_properties (some (l₁ ++ l₂)) (l₁ ++ l₂).length =
        apply_properties (some l₁) l₁.length ++ apply_properties (some l₂) l₂.length) := by
  have hfull : ∀ l : List AiRustProperty,
      apply_properties (some l) l.length = (l.map applyPropertyStep).flatten := by
    intro l
    simp [apply_properties, List.take_length]
  refine ⟨fun l => ?_, fun l => ?_, fun l₁ l₂ => ?_⟩
  · simp [hfull, applyPropertyStep_eq_spec]
  · simp [apply_export_properties, List.take_length, applyPropertyStep_eq_spec]
  · rw [hfull, hfull, hfull, List.map_append, List.flatten_append]

/-- C2 counterexample: with `numberOfSteps = 0` the file-write phase does
not deliver the fraction 0: `UpdateFileWrite` substitutes `f = 1.0f` and
delivers `f * 0.5f = 0.5`. -/
theorem updateFileWriteFraction_zero_steps_ne_zero :
    updateFileWriteFraction 0 0 ≠ 0 := by
  norm_num [updateFileWriteFraction]

/-- C2 (amended): for every phased progress update invoked with
`numberOfSteps = 0` and any `currentStep`, the fraction delivered to the
caller's callback is 0 for the file-read phase, 1 for the post-process
phase, and 1/2 for the file-write phase (read substitutes the fraction 0
directly; post-process and write substitute `f = 1` and then apply their
phase mappings `f * 0.5 + 0.5` and `f * 0.5`).  The last conjunct ties
the fraction functions to what each phased update actually delivers. -/
theorem progress_zero_steps_fractions :
    (∀ cur : Int,
      updateFileReadFraction cur 0 = 0 ∧
      updatePostProcessFraction cur 0 = 1 ∧
      updateFileWriteFraction cur 0 = 1 / 2) ∧
    (∀ (c : ProgressCb) (cur tot : Int),
      bridgeUpdateFileRead (some c) cur tot =
        [.call (updateFileReadFraction cur tot) (some s!"read {cur}/{tot}")] ∧
      bridgeUpdatePostProcess (some c) cur tot =
        [.call (updatePostProcessFraction cur tot) (some s!"post {cur}/{tot}")] ∧
      bridgeUpdateFileWrite (some c) cur tot =
        [.call (updateFileWriteFraction cur tot) (some s!"write {cur}/{tot}")]) := by
  refine ⟨fun cur => ⟨?_, ?_, ?_⟩, fun c cur tot => ⟨rfl, rfl, rfl⟩⟩
  · simp [updateFileReadFraction]
  · norm_num [updatePostProcessFraction]
  · norm_num [updateFileWriteFraction]

/-- C3: with a present I/O table whose `CloseProc` slot is set and a
stream adapter holding a non-null handle, the first `Close` invokes the
table's close exactly once on that handle and nulls the adapter's handle,
and a second `Close` on the resulting adapter invokes nothing; in
general, `Close` on any adapter whose handle is already null never
re-invokes the table's close operation. -/
theorem ioSystemClose_idempotent (fio : AiFileIO) (s : RustIOStream) (h : Nat)
    (hclose : fio.hasCloseProc = true) (hh : s.m_handle = some h) :
    (ioSystemClose (some fio) s).2 = [.closeProc h] ∧
    (ioSystemClose (some fio) s).1.m_handle = none ∧
    (ioSystemClose (some fio) (ioSystemClose (some fio) s).1).2 = [] ∧
    ∀ (t : RustIOStream) (fio2 : Option AiFileIO), t.m_handle = none →
      (ioSystemClose fio2 t).2 = [] := by
  refine ⟨?_, ?_, ?_, fun t fio2 ht => ?_⟩
  · simp [ioSystemClose, hh, hclose]
  · simp [ioSystemClose, hh, hclose]
  · simp [ioSystemClose, hh, hclose]
  · cases fio2 <;> simp [ioSystemClose, ht]

/-- C3 witness: the double-close property evaluated on the concrete table
with a close slot and the concrete adapter holding handle 5. -/
theorem ioSystemClose_idempotent_witness :
    (ioSystemClose (some ⟨true⟩) ⟨some 5⟩).2 = [.closeProc 5] ∧
    (ioSystemClose (some ⟨true⟩) ⟨some 5⟩).1.m_handle = none ∧
    (ioSystemClose (some ⟨true⟩) (ioSystemClose (some ⟨true⟩) ⟨some 5⟩).1).2 = [] :=
  ⟨(ioSystemClose_idempotent ⟨true⟩ ⟨some 5⟩ 5 rfl rfl).1,
    (ioSystemClose_idempotent ⟨true⟩ ⟨some 5⟩ 5 rfl rfl).2.1,
    (ioSystemClose_idempotent ⟨true⟩ ⟨some 5⟩ 5 rfl rfl).2.2.1⟩

/-- On a successful read-and-copy, `import_with_bridge` leaves the error
slot at its incoming value (the entry points pass the cleared slot). -/
theorem import_with_bridge_success_slot (eng : Engine) (path mem : Option String)
    (len flags : Nat) (fio : Option AiFileIO) (props : Option (List AiRustProperty))
    (cnt : Nat) (cb : Option ProgressCb) (hint : Option String) (err : String)
    (h : (import_with_bridge eng path mem len flags fio props cnt cb hint err).1.isSome
      = true) :
    (import_with_bridge eng path mem len flags fio props cnt cb hint err).2.1 = err := by
  unfold import_with_bridge at h ⊢
  cases path with
  | some p =>
    cases hr : eng.readFile p flags with
    | error e => simp [hr] at h
    | ok sc =>
      cases hc : eng.copyScene sc with
      | none => simp [hr, hc] at h
      | some out => simp [hr, hc]
  | none =>
    cases mem with
    | some m =>
      cases hr : eng.readFileFromMemory m len flags (hint.getD "") with
      | error e => simp [hr] at h
      | ok sc =>
        cases hc : eng.copyScene sc with
        | none => simp [hr, hc] at h
        | some out => simp [hr, hc]
    | none => simp at h

/-- C4: every public entry point clears the thread-local error slot at
entry (its result never depends on the incoming slot value) and writes it
only on failure paths, so after a successful call the slot is empty; and
`aiGetLastErrorStringRust` returns null exactly when the slot is empty,
otherwise the slot's contents. -/
theorem entry_points_error_slot_discipline :
    (∀ eng path flags fio props cnt cb s1 s2,
      aiImportFileExWithProgressRust eng path flags fio props cnt cb s1 =
        aiImportFileExWithProgressRust eng path flags fio props cnt cb s2) ∧
    (∀ eng data len flags hint props cnt cb s1 s2,
      aiImportFileFromMemoryWithProgressRust eng data len flags hint props cnt cb s1 =
        aiImportFileFromMemoryWithProgressRust eng data len flags hint props cnt cb s2) ∧
    (∀ eng scene fmt path fio pp props cnt s1 s2,
      aiExportSceneExWithPropertiesRust eng scene fmt path fio pp props cnt s1 =
        aiExportSceneExWithPropertiesRust eng scene fmt path fio pp props cnt s2) ∧
    (∀ eng scene fmt pp props cnt s1 s2,
      aiExportSceneToBlobWithPropertiesRust eng scene fmt pp props cnt s1 =
        aiExportSceneToBlobWithPropertiesRust eng scene fmt pp props cnt s2) ∧
    (∀ eng path flags fio props cnt cb slot,
      (aiImportFileExWithProgressRust eng path flags fio props cnt cb slot).1.isSome
          = true →
        (aiImportFileExWithProgressRust eng path flags fio props cnt cb slot).2.1 = "") ∧
    (∀ eng data len flags hint props cnt cb slot,
      (aiImportFileFromMemoryWithProgressRust eng data len flags hint props cnt cb
          slot).1.isSome = true →
        (aiImportFileFromMemoryWithProgressRust eng data len flags hint props cnt cb
          slot).2.1 = "") ∧
    (∀ eng scene fmt path fio pp props cnt slot,
      (aiExportSceneExWithPropertiesRust eng scene fmt path fio pp props cnt slot).1
          = AiReturn.success →
        (aiExportSceneExWithPropertiesRust eng scene fmt path fio pp props cnt slot).2.1
          = "") ∧
    (∀ eng scene fmt pp props cnt slot,
      (aiExportSceneToBlobWithPropertiesRust eng scene fmt pp props cnt slot).1.isSome
          = true →
        (aiExportSceneToBlobWithPropertiesRust eng scene fmt pp props cnt slot).2.1
          = "") ∧
    aiGetLastErrorStringRust "" = none ∧
    (∀ s : String, s ≠ "" → aiGetLastErrorStringRust s = some s) := by
  refine ⟨fun eng path flags fio props cnt cb s1 s2 => rfl,
    fun eng data len flags hint props cnt cb s1 s2 => rfl,
    fun eng scene fmt path fio pp props cnt s1 s2 => rfl,
    fun eng scene fmt pp props cnt s1 s2 => rfl,
    ?_, ?_, ?_, ?_, rfl, fun s hs => ?_⟩
  · intro eng path flags fio props cnt cb slot h
    cases path with
    | none => simp [aiImportFileExWithProgressRust] at h
    | some p =>
      exact import_with_bridge_success_slot eng (some p) none 0 flags fio props cnt cb
        none "" h
  · intro eng data len flags hint props cnt cb slot h
    cases data with
    | none => simp [aiImportFileFromMemoryWithProgressRust] at h
    | some d =>
      by_cases hl : len = 0
      · simp [aiImportFileFromMemoryWithProgressRust, hl] at h
      · simp only [aiImportFileFromMemoryWithProgressRust, if_neg hl] at h ⊢
        exact import_with_bridge_success_slot eng none (some d) len flags none props cnt
          cb hint "" h
  · intro eng scene fmt path fio pp props cnt slot h
    unfold aiExportSceneExWithPropertiesRust at h ⊢
    cases scene with
    | none => simp at h
    | some sc =>
      cases fmt with
      | none => simp at h
      | some f =>
        cases path with
        | none => simp at h
        | some p =>
          cases hr : eng.exportScene sc f p pp with
          | error e => simp [hr] at h
          | ok u => simp [hr]
  · intro eng scene fmt pp props cnt slot h
    unfold aiExportSceneToBlobWithPropertiesRust at h ⊢
    cases scene with
    | none => simp at h
    | some sc =>
      cases fmt with
      | none => simp at h
      | some f =>
        cases hr : eng.exportToBlob sc f pp with
        | error e => simp [hr] at h
        | ok b => simp [hr]
  · simp [aiGetLastErrorStringRust, hs]

/-- C4 witness: a successful path import with `sampleEngine` leaves the
slot empty even when the incoming slot held junk, and the error accessor
evaluates as specified on a concrete non-empty slot. -/
theorem entry_points_error_slot_discipline_witness :
    (aiImportFileExWithProgressRust sampleEngine (some "a.obj") 0 none none 0 none
      "junk").2.1 = "" ∧
    aiGetLastErrorStringRust "" = none ∧
    aiGetLastErrorStringRust "boom" = some "boom" :=
  ⟨entry_points_error_slot_discipline.2.2.2.2.1 sampleEngine (some "a.obj") 0 none none 0
      none "junk" rfl,
    entry_points_error_slot_discipline.2.2.2.2.2.2.2.2.1,
    entry_points_error_slot_discipline.2.2.2.2.2.2.2.2.2 "boom" (by decide)⟩

/-- C5: `aiImportFileExWithProgressRust` with a null path returns null,
records "Path is null", and makes no engine call, constructs no adapter
and applies no property (empty event trace); and
`aiImportFileFromMemoryWithProgressRust` with a null buffer pointer or a
zero length returns null, records "Memory buffer is empty", with an
equally empty trace.  In both cases the accessor then reports exactly the
recorded message. -/
theorem null_path_and_empty_buffer_short_circuit :
    (∀ eng flags fio props cnt cb slot,
      aiImportFileExWithProgressRust eng none flags fio props cnt cb slot =
        (none, "Path is null", [])) ∧
    (∀ eng data len flags hint props cnt cb slot, data = none ∨ len = 0 →
      aiImportFileFromMemoryWithProgressRust eng data len flags hint props cnt cb slot =
        (none, "Memory buffer is empty", [])) ∧
    aiGetLastErrorStringRust "Path is null" = some "Path is null" ∧
    aiGetLastErrorStringRust "Memory buffer is empty" = some "Memory buffer is empty" := by
  refine ⟨fun eng flags fio props cnt cb slot => rfl, ?_, by decide, by decide⟩
  intro eng data len flags hint props cnt cb slot h
  cases data with
  | none => rfl
  | some d =>
    rcases h with h | h
    · exact absurd h (by simp)
    · simp [aiImportFileFromMemoryWithProgressRust, h]

/-- C5 witness: the null-path import and the zero-length memory import
evaluated on `sampleEngine` (whose engine calls would succeed, showing
the short-circuit fires first). -/
theorem null_path_and_empty_buffer_short_circuit_witness :
    aiImportFileExWithProgressRust sampleEngine none 0 none none 0 none "old" =
      (none, "Path is null", []) ∧
    aiImportFileFromMemoryWithProgressRust sampleEngine (some "data") 0 0 none none 0
      none "old" = (none, "Memory buffer is empty", []) :=
  ⟨null_path_and_empty_buffer_short_circuit.1 sampleEngine 0 none none 0 none "old",
    null_path_and_empty_buffer_short_circuit.2.1 sampleEngine (some "data") 0 0 none
      none 0 none "old" (Or.inr rfl)⟩

/-- C6: in a build with `ASSIMP_BUILD_NO_EXPORT` defined, every call of
the file-export entry point returns the failure code and every call of
the blob-export entry point returns null, both record the same fixed
capability-absent message, and their event traces are empty (no engine
API is invoked), for all argument values. -/
theorem no_export_build_fails_without_engine_calls :
    (∀ scene fmt path fio pp props cnt slot,
      aiExportSceneExWithPropertiesRust_noExport scene fmt path fio pp props cnt slot =
        (AiReturn.failure, noExportMsg, [])) ∧
    (∀ scene fmt pp props cnt slot,
      aiExportSceneToBlobWithPropertiesRust_noExport scene fmt pp props cnt slot =
        (none, noExportMsg, [])) :=
  ⟨fun _ _ _ _ _ _ _ _ => rfl, fun _ _ _ _ _ _ => rfl⟩

/-- C7: whenever the engine's read (from path or from memory) produces a
scene, `import_with_bridge` returns exactly `aiCopyScene`'s output for
that scene — the deep copy detached from the importer, never the
importer-owned original — and when the copy operation yields null the
call returns null with the copy-failure message "aiCopyScene returned
null" recorded in the error slot. -/
theorem import_returns_deep_copy (eng : Engine) (flags : Nat) (fio : Option AiFileIO)
    (props : Option (List AiRustProperty)) (cnt : Nat) (cb : Option ProgressCb)
    (hint : Option String) (err : String) :
    (∀ (p : String) (mem : Option String) (len : Nat) (s : Scene),
      eng.readFile p flags = .ok s →
      (import_with_bridge eng (some p) mem len flags fio props cnt cb hint err).1 =
        eng.copyScene s ∧
      (eng.copyScene s = none →
        (import_with_bridge eng (some p) mem len flags fio props cnt cb hint err).2.1 =
          "aiCopyScene returned null")) ∧
    (∀ (m : String) (len : Nat) (s : Scene),
      eng.readFileFromMemory m len flags (hint.getD "") = .ok s →
      (import_with_bridge eng none (some m) len flags fio props cnt cb hint err).1 =
        eng.copyScene s ∧
      (eng.copyScene s = none →
        (import_with_bridge eng none (some m) len flags fio props cnt cb hint err).2.1 =
          "aiCopyScene returned null")) := by
  constructor
  · intro p mem len s hr
    cases hc : eng.copyScene s with
    | none =>
      refine ⟨?_, fun _ => ?_⟩ <;> simp [import_with_bridge, hr, hc]
    | some out =>
      refine ⟨?_, fun hn => ?_⟩
      · simp [import_with_bridge, hr, hc]
      · simp [hc] at hn
  · intro m len s hr
    cases hc : eng.copyScene s with
    | none =>
      refine ⟨?_, fun _ => ?_⟩ <;> simp [import_with_bridge, hr, hc]
    | some out =>
      refine ⟨?_, fun hn => ?_⟩
      · simp [import_with_bridge, hr, hc]
      · simp [hc] at hn

/-- C7 witness: with `sampleEngine` the returned scene is the deep copy
107 of the engine-produced scene 7, and with `copyFailEngine` (whose
`aiCopyScene` yields null) the copy-failure message is recorded. -/
theorem import_returns_deep_copy_witness :
    (import_with_bridge sampleEngine (some "x") none 0 0 none none 0 none none "").1 =
      some 107 ∧
    (import_with_bridge copyFailEngine (some "x") none 0 0 none none 0 none none "").2.1 =
      "aiCopyScene returned null" :=
  ⟨((import_returns_deep_copy sampleEngine 0 none none 0 none none "").1 "x" none 0 7
      rfl).1,
    (((import_returns_deep_copy copyFailEngine 0 none none 0 none none "").1 "x" none 0 7
      rfl).2 rfl)⟩

/-- C8: for two `ImportFile` calls on distinct threads `t1` and `t2`
(each with its own engine state, I/O table and arguments), the call on
`t1` never changes `t2`'s instance of the thread-local error slot; and
after running `t1`'s call and then `t2`'s call, each thread's
`GetLastError` observes exactly the error string its own call produced
from its own cleared slot — neither observes the other's error-channel
state. -/
theorem concurrent_imports_error_isolation (t1 t2 : Nat) (hne : t1 ≠ t2)
    (eng1 eng2 : Engine) (p1 p2 : Option String) (f1 f2 : Nat)
    (io1 io2 : Option AiFileIO) (pr1 pr2 : Option (List AiRustProperty)) (c1 c2 : Nat)
    (cb1 cb2 : Option ProgressCb) (slots : ErrorSlots) :
    (importFileOnThread eng1 t1 p1 f1 io1 pr1 c1 cb1 slots).2 t2 = slots t2 ∧
    getLastErrorOnThread
        ((importFileOnThread eng2 t2 p2 f2 io2 pr2 c2 cb2
          ((importFileOnThread eng1 t1 p1 f1 io1 pr1 c1 cb1 slots).2)).2) t1 =
      aiGetLastErrorStringRust
        (aiImportFileExWithProgressRust eng1 p1 f1 io1 pr1 c1 cb1 (slots t1)).2.1 ∧
    getLastErrorOnThread
        ((importFileOnThread eng2 t2 p2 f2 io2 pr2 c2 cb2
          ((importFileOnThread eng1 t1 p1 f1 io1 pr1 c1 cb1 slots).2)).2) t2 =
      aiGetLastErrorStringRust
        (aiImportFileExWithProgressRust eng2 p2 f2 io2 pr2 c2 cb2 (slots t2)).2.1 := by
  have h21 : (t2 = t1) = False := eq_false fun h => hne h.symm
  have h12 : (t1 = t2) = False := eq_false hne
  refine ⟨?_, ?_, ?_⟩
  · simp [importFileOnThread, h21]
  · simp [importFileOnThread, getLastErrorOnThread, h12, h21]
  · simp [importFileOnThread, getLastErrorOnThread, h21]

/-- C8 witness: thread 0 runs a null-path import (which records "Path is
null"), thread 1 runs a successful import; afterwards thread 0 observes
its own error and thread 1 observes none. -/
theorem concurrent_imports_error_isolation_witness :
    getLastErrorOnThread
        ((importFileOnThread sampleEngine 1 (some "x") 0 none none 0 none
          ((importFileOnThread sampleEngine 0 none 0 none none 0 none
            (fun _ => "")).2)).2) 0 = some "Path is null" ∧
    getLastErrorOnThread
        ((importFileOnThread sampleEngine 1 (some "x") 0 none none 0 none
          ((importFileOnThread sampleEngine 0 none 0 none none 0 none
            (fun _ => "")).2)).2) 1 = none := by
  have h := concurrent_imports_error_isolation 0 1 (by decide) sampleEngine sampleEngine
    none (some "x") 0 0 none none none none 0 0 none none (fun _ => "")
  exact ⟨h.2.1, h.2.2⟩

/-- C9: the `Bool` returned by the caller's callback from a phased update
is discarded — the engine-visible outcome of `UpdateFileRead`,
`UpdatePostProcess` and `UpdateFileWrite` (a `void` return plus the
delivered event) is identical for any two callbacks, however they answer —
while the scalar `Update` notification propagates the callback's return
value to the engine and returns `true` when no callback is installed. -/
theorem phased_updates_discard_callback_result :
    (∀ (c1 c2 : ProgressCb) (cur tot : Int),
      bridgeUpdateFileRead (some c1) cur tot = bridgeUpdateFileRead (some c2) cur tot ∧
      bridgeUpdatePostProcess (some c1) cur tot =
        bridgeUpdatePostProcess (some c2) cur tot ∧
      bridgeUpdateFileWrite (some c1) cur tot = bridgeUpdateFileWrite (some c2) cur tot) ∧
    (∀ (c : ProgressCb) (pct : Rat), (bridgeUpdate (some c) pct).1 = c pct none) ∧
    (∀ pct : Rat, (bridgeUpdate none pct).1 = true) :=
  ⟨fun _ _ _ _ => ⟨rfl, rfl, rfl⟩, fun _ _ => rfl, fun _ => rfl⟩

/-- C10: a null descriptor-array pointer makes both marshaller functions
return immediately with no set-property call, whatever the count — in
particular for strictly positive counts. -/
theorem null_props_pointer_applies_nothing :
    ∀ count : Nat,
      apply_properties none count = [] ∧ apply_export_properties none count = [] :=
  fun _ => ⟨rfl, rfl⟩
